import Mathlib

/-!
# Signature verification with a single-use verification cache

A shallow embedding of `x/auth/signing/verify.go`:

* `APISignModeToInternal`, `internalSignModeToAPI`, `APISignModesToInternal`
  (the sign-mode conversions),
* `verifySig` (raw verification in front of the cache),
* `VerifySignature` (dispatch on the shape of the signature data).

Go values are embedded as follows.

* `[]byte` is `Bytes`, a list of naturals; Go's `string` used as a cache key is
  the same byte sequence (`CacheKey`).
* `error` is its message (`Error := String`); a Go function returning
  `(T, error)` returns `Except Error T`, one returning `error` returns
  `Except Error Unit`.
* The two `SignMode` enums are `int32` in Go; each is a one-field structure
  over `Int`, so that every value the Go type can hold is an input.
* `*Cache` is `Option Cache` (`none` is the nil pointer); a call that mutates
  the cache returns the cache it leaves behind.
* The interfaces `cryptotypes.PubKey` / `multisig.PubKey` are a record of
  methods, the multisig capability being optional.
-/

namespace Signing

/-! ## Data model -/

/-- Byte sequences (`[]byte`). -/
abbrev Bytes := List Nat

/-- Keys of the verification cache (Go `string`, a byte sequence). -/
abbrev CacheKey := List Nat

/-- Go `error` values, identified with their message. -/
abbrev Error := String

deriving instance DecidableEq for Except

/-- External (protobuf, `signingv1beta1`) sign mode, an `int32` enum. -/
structure APISignMode where
  val : Int
deriving DecidableEq, Repr

/-- Internal (`types/tx/signing`) sign mode, an `int32` enum. -/
structure SignMode where
  val : Int
deriving DecidableEq, Repr

/-- Modelled from the spec: the enum constants of `signingv1beta1.SignMode`
(declared outside `verify.go`), with their wire numbers. -/
def APISignMode.UNSPECIFIED : APISignMode := ⟨0⟩
/-- Modelled from the spec: wire constant `SIGN_MODE_DIRECT` of the external enum. -/
def APISignMode.DIRECT : APISignMode := ⟨1⟩
/-- Modelled from the spec: wire constant `SIGN_MODE_TEXTUAL` of the external enum. -/
def APISignMode.TEXTUAL : APISignMode := ⟨2⟩
/-- Modelled from the spec: wire constant `SIGN_MODE_DIRECT_AUX` of the external enum. -/
def APISignMode.DIRECT_AUX : APISignMode := ⟨3⟩
/-- Modelled from the spec: wire constant `SIGN_MODE_LEGACY_AMINO_JSON` of the external enum. -/
def APISignMode.LEGACY_AMINO_JSON : APISignMode := ⟨127⟩

/-- Modelled from the spec: the enum constants of the internal `signing.SignMode`
(declared outside `verify.go`), with their numbers. -/
def SignMode.UNSPECIFIED : SignMode := ⟨0⟩
/-- Modelled from the spec: constant `SIGN_MODE_DIRECT` of the internal enum. -/
def SignMode.DIRECT : SignMode := ⟨1⟩
/-- Modelled from the spec: constant `SIGN_MODE_TEXTUAL` of the internal enum. -/
def SignMode.TEXTUAL : SignMode := ⟨2⟩
/-- Modelled from the spec: constant `SIGN_MODE_DIRECT_AUX` of the internal enum. -/
def SignMode.DIRECT_AUX : SignMode := ⟨3⟩
/-- Modelled from the spec: constant `SIGN_MODE_LEGACY_AMINO_JSON` of the internal enum. -/
def SignMode.LEGACY_AMINO_JSON : SignMode := ⟨127⟩

/-- Modelled from the spec: the `String()` method of an enum value (generated
code outside `verify.go`): the constant's name, or the number in decimal. -/
def signModeName (v : Int) : String :=
  if v = 0 then "SIGN_MODE_UNSPECIFIED"
  else if v = 1 then "SIGN_MODE_DIRECT"
  else if v = 2 then "SIGN_MODE_TEXTUAL"
  else if v = 3 then "SIGN_MODE_DIRECT_AUX"
  else if v = 127 then "SIGN_MODE_LEGACY_AMINO_JSON"
  else if v = 191 then "SIGN_MODE_EIP_191"
  else toString v

/-- The `%s` rendering of an external sign mode. -/
def APISignMode.String (m : APISignMode) : String := signModeName m.val

/-- The `%s` rendering of an internal sign mode. -/
def SignMode.String (m : SignMode) : String := signModeName m.val

/-- The bit array of a multi-signature (`CompactBitArray`). -/
structure CompactBitArray where
  extraBitsStored : Nat
  elems : Bytes
deriving DecidableEq, Repr

/-- Values of the interface `signing.SignatureData`, by dynamic type:
`*SingleSignatureData`, `*MultiSignatureData`, a value of any other dynamic
type (named, for `%T`), or the nil interface. The two pointers are taken to
be non-nil, as `VerifySignature` dereferences them unconditionally. -/
inductive SignatureData where
  | single (signMode : SignMode) (signature : Bytes)
  | multi (bitArray : CompactBitArray) (signatures : List SignatureData)
  | other (typeName : String)
  | nil

/-- The `%T` rendering of a signature-data value. -/
def SignatureData.typeString : SignatureData → String
  | .single _ _ => "*signing.SingleSignatureData"
  | .multi _ _ => "*signing.MultiSignatureData"
  | .other n => n
  | .nil => "<nil>"

/-- The callback type `multisig.GetSignBytesFunc`. -/
abbrev GetSignBytesFunc := SignMode → Except Error Bytes

/-- A public key: the methods of `cryptotypes.PubKey` that `verify.go` calls,
its dynamic type name (for `%T`), and `VerifyMultisignature` when the dynamic
type also implements `multisig.PubKey`. -/
structure PubKey where
  typeName : String
  bytes : Bytes
  verifySignature : Bytes → Bytes → Bool
  verifyMultisignature :
    Option (GetSignBytesFunc → CompactBitArray → List SignatureData → Except Error Unit)

/-- The handler map of `x/tx/signing`, seen through its one method used here;
signer data and transaction data are opaque to `verify.go`. -/
structure HandlerMap (SignerData TxData : Type) where
  getSignBytes : APISignMode → SignerData → TxData → Except Error Bytes

/-! ## The verification cache -/

/-- Modelled from the spec: the type `Cache` (declared outside `verify.go`), a
bounded store of entries `CacheKey ↦ public-key bytes` with least-recently-used
eviction. `items` lists the entries from most to least recently used. -/
structure Cache where
  size : Nat
  items : List (CacheKey × Bytes)
deriving DecidableEq, Repr

namespace Cache

/-- The entries of `l` stored under a key other than `k`. -/
def without (l : List (CacheKey × Bytes)) (k : CacheKey) : List (CacheKey × Bytes) :=
  l.filter (fun e => e.1 != k)

/-- The value stored under `k`, if any (no effect on the cache). -/
def peek (c : Cache) (k : CacheKey) : Option Bytes :=
  c.items.lookup k

/-- Modelled from the spec: `Cache.Get` (missing from the sources), it returns
the value stored under the key and whether it was found; a hit makes the entry
the most recently used one, and nothing is evicted. -/
def Get (c : Cache) (k : CacheKey) : Option Bytes × Cache :=
  match c.items.lookup k with
  | some v => (some v, Cache.mk c.size ((k, v) :: without c.items k))
  | none => (none, c)

/-- Modelled from the spec: `Cache.Remove` (missing from the sources), it
deletes the entry stored under the key, if any. -/
def Remove (c : Cache) (k : CacheKey) : Cache :=
  Cache.mk c.size (without c.items k)

/-- Modelled from the spec: `Cache.Add` (missing from the sources), it stores
the value under the key as the most recently used entry; when this exceeds the
capacity the least recently used entry is evicted. -/
def Add (c : Cache) (k : CacheKey) (v : Bytes) : Cache :=
  match c.items.lookup k with
  | some _ => Cache.mk c.size ((k, v) :: without c.items k)
  | none =>
    let l := (k, v) :: c.items
    Cache.mk c.size (if c.size < l.length then l.dropLast else l)

end Cache

/-! ## `verify.go` -/

/-- Translation of `APISignModeToInternal`: converts a protobuf sign mode to
an internal sign mode. -/
def APISignModeToInternal (mode : APISignMode) : Except Error SignMode :=
  if mode = APISignMode.DIRECT then .ok SignMode.DIRECT
  else if mode = APISignMode.LEGACY_AMINO_JSON then .ok SignMode.LEGACY_AMINO_JSON
  else if mode = APISignMode.TEXTUAL then .ok SignMode.TEXTUAL
  else if mode = APISignMode.DIRECT_AUX then .ok SignMode.DIRECT_AUX
  else .error ("unsupported sign mode " ++ mode.String)

/-- Translation of `internalSignModeToAPI`: converts an internal sign mode to
a protobuf sign mode. -/
def internalSignModeToAPI (mode : SignMode) : Except Error APISignMode :=
  if mode = SignMode.DIRECT then .ok APISignMode.DIRECT
  else if mode = SignMode.LEGACY_AMINO_JSON then .ok APISignMode.LEGACY_AMINO_JSON
  else if mode = SignMode.TEXTUAL then .ok APISignMode.TEXTUAL
  else if mode = SignMode.DIRECT_AUX then .ok APISignMode.DIRECT_AUX
  else .error ("unsupported sign mode " ++ mode.String)

/-- Translation of `APISignModesToInternal`: converts a list of protobuf sign
modes, stopping at the first error. -/
def APISignModesToInternal : List APISignMode → Except Error (List SignMode)
  | [] => .ok []
  | mode :: modes =>
    match APISignModeToInternal mode with
    | .error err => .error err
    | .ok internalMode =>
      match APISignModesToInternal modes with
      | .error err => .error err
      | .ok internalModes => .ok (internalMode :: internalModes)

/-- Translation of `verifySig`. `newSigKey signBytes sig` stands for
`newSigKey(signBytes, sig).string()`, whose declaration is outside `verify.go`
and is a parameter here. Returns the boolean result and the cache left behind. -/
def verifySig (newSigKey : Bytes → Bytes → CacheKey) (signBytes sig : Bytes)
    (pubKey : PubKey) (cs : Option Cache) : Bool × Option Cache :=
  match cs with
  | some c =>
    let bz := newSigKey signBytes sig
    match c.Get bz with
    | (some cachePub, c1) =>
      -- the entry is spent on the first lookup that finds it
      let c2 := c1.Remove bz
      (decide (pubKey.bytes = cachePub), some c2)
    | (none, c1) =>
      if !pubKey.verifySignature signBytes sig then (false, some c1)
      else (true, some (c1.Add bz pubKey.bytes))
  | none =>
    if !pubKey.verifySignature signBytes sig then (false, none)
    else (true, none)

/-- The callback handed to `VerifyMultisignature` by `VerifySignature`. -/
def multiSignBytes {SignerData TxData : Type} (handler : HandlerMap SignerData TxData)
    (signerData : SignerData) (txData : TxData) : GetSignBytesFunc :=
  fun mode =>
    match internalSignModeToAPI mode with
    | .error err => .error err
    | .ok signMode => handler.getSignBytes signMode signerData txData

/-- Translation of `VerifySignature`. Returns the error result and the cache
left behind. -/
def VerifySignature {SignerData TxData : Type} (newSigKey : Bytes → Bytes → CacheKey)
    (pubKey : PubKey) (signerData : SignerData) (signatureData : SignatureData)
    (handler : HandlerMap SignerData TxData) (txData : TxData) (cache : Option Cache) :
    Except Error Unit × Option Cache :=
  match signatureData with
  | .single dataSignMode dataSignature =>
    match internalSignModeToAPI dataSignMode with
    | .error err => (.error err, cache)
    | .ok signMode =>
      match handler.getSignBytes signMode signerData txData with
      | .error err => (.error err, cache)
      | .ok signBytes =>
        match verifySig newSigKey signBytes dataSignature pubKey cache with
        | (false, cache1) => (.error "unable to verify single signer signature", cache1)
        | (true, cache1) => (.ok (), cache1)
  | .multi bitArray signatures =>
    match pubKey.verifyMultisignature with
    | none => (.error ("expected <nil>, got " ++ pubKey.typeName), cache)
    | some verifyMulti =>
      match verifyMulti (multiSignBytes handler signerData txData) bitArray signatures with
      | .error err => (.error err, cache)
      | .ok _ => (.ok (), cache)
  | sd => (.error ("unexpected SignatureData " ++ sd.typeString), cache)

/-! ## Concrete instances

Small instances of the parameters, used to evaluate the definitions. -/

/-- A cache key function: the length of the sign bytes, the sign bytes, the signature. -/
def exampleSigKey : Bytes → Bytes → CacheKey :=
  fun signBytes sig => signBytes.length :: (signBytes ++ sig)

/-- A toy key: a signature is valid when it is the sign bytes reversed. -/
def exampleKey : PubKey :=
  PubKey.mk "*secp256k1.PubKey" [2, 7] (fun signBytes sig => decide (sig = signBytes.reverse)) none

/-- A second toy key with other bytes: a signature is valid when it equals the sign bytes. -/
def otherKey : PubKey :=
  PubKey.mk "*ed25519.PubKey" [3, 9] (fun signBytes sig => decide (sig = signBytes)) none

/-- A toy multisig-capable key: every listed signature must be a single
signature valid for `exampleKey` over the sign bytes of its own mode. -/
def exampleMultiKey : PubKey :=
  PubKey.mk "*multisig.LegacyAminoPubKey" [5]
    (fun _ _ => false)
    (some (fun getSignBytes _ sigs =>
      sigs.foldl (fun acc sigData =>
        match acc, sigData with
        | .error err, _ => .error err
        | .ok _, .single mode sig =>
          match getSignBytes mode with
          | .error err => .error err
          | .ok signBytes =>
            if exampleKey.verifySignature signBytes sig then .ok ()
            else .error "unable to verify signature"
        | .ok _, _ => .error "improper signature data type") (.ok ())))

/-- A toy handler map over signer data `Nat` (a sequence number) and
transaction data `Bytes`, with handlers for DIRECT and LEGACY_AMINO_JSON only. -/
def exampleHandler : HandlerMap Nat Bytes :=
  HandlerMap.mk (fun mode seq tx =>
    if mode = APISignMode.DIRECT then .ok (seq :: tx)
    else if mode = APISignMode.LEGACY_AMINO_JSON then .ok (tx ++ [seq])
    else .error "sign mode not supported by the handler map")

/-- The keys `keys` that may be claimed, and the cache content they justify:
every entry is stored under the key of some pair, and for every pair
`(P, S)` whose key it is stored under, the stored bytes are those of a public
key among `keys` whose raw verification accepts `(P, S)`. -/
def Cache.Valid (newSigKey : Bytes → Bytes → CacheKey) (keys : PubKey → Prop) (c : Cache) :
    Prop :=
  ∀ e ∈ c.items, (∃ P S, newSigKey P S = e.1) ∧
    ∀ P S, newSigKey P S = e.1 → ∃ K, keys K ∧ K.bytes = e.2 ∧ K.verifySignature P S = true

/-- The keys that verify like `exampleKey` and have its bytes. -/
def exampleKeys : PubKey → Prop :=
  fun K => K.bytes = exampleKey.bytes ∧ K.verifySignature = exampleKey.verifySignature

/-! ## Causes of failure

The conditions under which `VerifySignature` reaches each of its error returns. -/

/-- The call stops at the mode conversion of single signature data
(`verify.go:99-102`). -/
def failsUnsupportedMode (data : SignatureData) : Prop :=
  ∃ m S err, data = .single m S ∧ internalSignModeToAPI m = .error err

/-- The call stops at the check of single signature data (`verify.go:107-109`):
the mode converts, the handler produces sign bytes, and `verifySig` returns
false on them. -/
def failsVerification {SignerData TxData : Type} (newSigKey : Bytes → Bytes → CacheKey)
    (pubKey : PubKey) (signerData : SignerData) (signatureData : SignatureData)
    (handler : HandlerMap SignerData TxData) (txData : TxData) (cache : Option Cache) : Prop :=
  ∃ m S am P, signatureData = .single m S ∧ internalSignModeToAPI m = .ok am ∧
    handler.getSignBytes am signerData txData = .ok P ∧
    (verifySig newSigKey P S pubKey cache).1 = false

/-- The call stops at the capability test of multi signature data
(`verify.go:113-116`). -/
def failsNotMultisig (pubKey : PubKey) (data : SignatureData) : Prop :=
  ∃ bits sigs, data = .multi bits sigs ∧ pubKey.verifyMultisignature = none

/-- The call reaches the default branch (`verify.go:128-129`). -/
def failsUnknownData (data : SignatureData) : Prop :=
  (∀ m S, data ≠ .single m S) ∧ ∀ bits sigs, data ≠ .multi bits sigs

/-- The error `err` is handed to the call by the handler map
(`verify.go:103-106`) or by the key's `VerifyMultisignature`
(`verify.go:117-126`), which the call returns as it is. -/
def passedThrough {SignerData TxData : Type} (pubKey : PubKey) (signerData : SignerData)
    (signatureData : SignatureData) (handler : HandlerMap SignerData TxData) (txData : TxData)
    (err : Error) : Prop :=
  (∃ m S am, signatureData = .single m S ∧ internalSignModeToAPI m = .ok am ∧
    handler.getSignBytes am signerData txData = .error err) ∨
  (∃ bits sigs verifyMulti, signatureData = .multi bits sigs ∧
    pubKey.verifyMultisignature = some verifyMulti ∧
    verifyMulti (multiSignBytes handler signerData txData) bits sigs = .error err)

/-! ## Lemmas on the cache model -/

theorem Cache.lookup_without_self (l : List (CacheKey × Bytes)) (k : CacheKey) :
    (Cache.without l k).lookup k = none := by
  induction l with
  | nil => rfl
  | cons e l ih =>
    obtain ⟨k1, v1⟩ := e
    by_cases h : k1 = k
    · simpa [Cache.without, h] using ih
    · have hk : (k == k1) = false := by simpa using fun h1 => h h1.symm
      simpa [Cache.without, h, List.lookup, hk] using ih

theorem Cache.lookup_without_other (l : List (CacheKey × Bytes)) (k k1 : CacheKey)
    (h : k1 ≠ k) : (Cache.without l k).lookup k1 = l.lookup k1 := by
  induction l with
  | nil => rfl
  | cons e l ih =>
    obtain ⟨k2, v2⟩ := e
    by_cases h2 : k2 = k
    · subst h2
      have hk : (k1 == k2) = false := by simpa using h
      simpa [Cache.without, List.lookup, hk] using ih
    · by_cases h3 : k1 = k2
      · simp [Cache.without, h2, List.lookup, h3]
      · have hk : (k1 == k2) = false := by simpa using h3
        simpa [Cache.without, h2, List.lookup, hk] using ih

theorem Cache.mem_without {l : List (CacheKey × Bytes)} {k : CacheKey} {e : CacheKey × Bytes}
    (h : e ∈ Cache.without l k) : e ∈ l ∧ e.1 ≠ k := by
  simpa [Cache.without] using h

theorem Cache.without_without (l : List (CacheKey × Bytes)) (k : CacheKey) (v : Bytes) :
    Cache.without ((k, v) :: Cache.without l k) k = Cache.without l k := by
  simp [Cache.without, List.filter_filter]

theorem Cache.Get_hit {c : Cache} {k : CacheKey} {b : Bytes} (h : (c.Get k).1 = some b) :
    c.items.lookup k = some b ∧
      c.Get k = (some b, Cache.mk c.size ((k, b) :: Cache.without c.items k)) := by
  unfold Cache.Get at h ⊢
  cases hl : c.items.lookup k with
  | none => simp [hl] at h
  | some v =>
    simp only [hl] at h ⊢
    cases h
    exact ⟨rfl, rfl⟩

theorem Cache.Get_miss {c : Cache} {k : CacheKey} (h : (c.Get k).1 = none) :
    c.items.lookup k = none ∧ c.Get k = (none, c) := by
  unfold Cache.Get at h ⊢
  cases hl : c.items.lookup k with
  | none => exact ⟨rfl, rfl⟩
  | some v => simp [hl] at h

theorem Cache.items_Add_of_pos (c : Cache) (k : CacheKey) (v : Bytes) (h : 0 < c.size) :
    ∃ l, (c.Add k v).items = (k, v) :: l := by
  unfold Cache.Add
  cases c.items.lookup k with
  | some _ => exact ⟨_, rfl⟩
  | none =>
    cases hi : c.items with
    | nil =>
      have : ¬ c.size < 1 := by omega
      exact ⟨[], by simp [this]⟩
    | cons e l =>
      by_cases hlt : c.size < ((k, v) :: e :: l).length
      · exact ⟨(e :: l).dropLast, by simp only [hlt, if_true, List.dropLast]⟩
      · exact ⟨e :: l, by simp only [hlt, if_false]⟩

theorem Cache.Get_Add (c : Cache) (k : CacheKey) (v : Bytes) (h : 0 < c.size) :
    ((c.Add k v).Get k).1 = some v := by
  obtain ⟨l, hl⟩ := Cache.items_Add_of_pos c k v h
  simp [Cache.Get, hl, List.lookup]

/-- The result of `verifySig` when the cache holds `b` under the key of the pair. -/
theorem verifySig_of_hit (newSigKey : Bytes → Bytes → CacheKey) (P S : Bytes) (K : PubKey)
    (c : Cache) (b : Bytes) (hit : (c.Get (newSigKey P S)).1 = some b) :
    verifySig newSigKey P S K (some c) =
      (decide (K.bytes = b), some (Cache.mk c.size (Cache.without c.items (newSigKey P S)))) := by
  have h2 := (Cache.Get_hit hit).2
  simp only [verifySig, h2, Cache.Remove, Cache.without_without]

/-- The result of `verifySig` when the cache holds nothing under the key of the pair. -/
theorem verifySig_of_miss (newSigKey : Bytes → Bytes → CacheKey) (P S : Bytes) (K : PubKey)
    (c : Cache) (miss : (c.Get (newSigKey P S)).1 = none) :
    verifySig newSigKey P S K (some c) =
      if K.verifySignature P S then (true, some (c.Add (newSigKey P S) K.bytes))
      else (false, some c) := by
  have h2 := (Cache.Get_miss miss).2
  simp only [verifySig, h2]
  cases K.verifySignature P S <;> simp

/-- The result of `verifySig` without a cache. -/
theorem verifySig_of_nil (newSigKey : Bytes → Bytes → CacheKey) (P S : Bytes) (K : PubKey) :
    verifySig newSigKey P S K none = (K.verifySignature P S, none) := by
  simp only [verifySig]
  cases K.verifySignature P S <;> simp

/-- The result of `VerifySignature` on single signature data whose mode converts
and whose sign bytes are produced. -/
theorem VerifySignature_single {SignerData TxData : Type}
    (newSigKey : Bytes → Bytes → CacheKey) (K : PubKey) (sd : SignerData)
    (handler : HandlerMap SignerData TxData) (td : TxData) (cache : Option Cache)
    (m : SignMode) (am : APISignMode) (P S : Bytes)
    (hm : internalSignModeToAPI m = .ok am) (hP : handler.getSignBytes am sd td = .ok P) :
    VerifySignature newSigKey K sd (.single m S) handler td cache =
      (if (verifySig newSigKey P S K cache).1 then .ok ()
        else .error "unable to verify single signer signature",
       (verifySig newSigKey P S K cache).2) := by
  simp only [VerifySignature, hm, hP]
  rcases hv : verifySig newSigKey P S K cache with ⟨r, c1⟩
  cases r <;> simp

theorem Cache.mem_Add {c : Cache} {k : CacheKey} {v : Bytes} {e : CacheKey × Bytes}
    (h : e ∈ (c.Add k v).items) : e = (k, v) ∨ e ∈ c.items := by
  unfold Cache.Add at h
  cases hl : c.items.lookup k with
  | some w =>
    simp only [hl, List.mem_cons] at h
    rcases h with h | h
    · exact Or.inl h
    · exact Or.inr (Cache.mem_without h).1
  | none =>
    simp only [hl] at h
    have h3 : e ∈ (k, v) :: c.items := by
      split at h
      · exact List.dropLast_subset _ h
      · exact h
    simpa using h3

/-- What `verifySig` does to the entries: each entry it leaves was there before,
or is the pair's key with the claimed key's bytes, added after the claimed key
verified. -/
theorem verifySig_items (newSigKey : Bytes → Bytes → CacheKey) (P S : Bytes) (K : PubKey)
    (c c1 : Cache) (h : (verifySig newSigKey P S K (some c)).2 = some c1) :
    c1.size = c.size ∧
    ∀ e ∈ c1.items,
      e ∈ c.items ∨ (e = (newSigKey P S, K.bytes) ∧ K.verifySignature P S = true) := by
  cases hg : (c.Get (newSigKey P S)).1 with
  | some b =>
    rw [verifySig_of_hit newSigKey P S K c b hg] at h
    cases h
    exact ⟨rfl, fun e he => Or.inl (Cache.mem_without he).1⟩
  | none =>
    rw [verifySig_of_miss newSigKey P S K c hg] at h
    cases hv : K.verifySignature P S with
    | false =>
      simp only [hv] at h
      cases h
      exact ⟨rfl, fun e he => Or.inl he⟩
    | true =>
      simp only [hv, if_true] at h
      cases h
      refine ⟨?_, fun e he => ?_⟩
      · unfold Cache.Add
        cases c.items.lookup (newSigKey P S) <;> rfl
      · rcases Cache.mem_Add he with h1 | h1
        · exact Or.inr ⟨h1, rfl⟩
        · exact Or.inl h1

/-- The cache `VerifySignature` leaves is the one it was given, or the one
`verifySig` leaves for the sign bytes of single signature data. -/
theorem VerifySignature_cache {SignerData TxData : Type}
    (newSigKey : Bytes → Bytes → CacheKey) (K : PubKey) (sd : SignerData)
    (data : SignatureData) (handler : HandlerMap SignerData TxData) (td : TxData)
    (cache : Option Cache) :
    (VerifySignature newSigKey K sd data handler td cache).2 = cache ∨
      ∃ P S, (VerifySignature newSigKey K sd data handler td cache).2 =
        (verifySig newSigKey P S K cache).2 := by
  cases data with
  | single m s =>
    cases hm : internalSignModeToAPI m with
    | error e => left; simp [VerifySignature, hm]
    | ok am =>
      cases hP : handler.getSignBytes am sd td with
      | error e => left; simp [VerifySignature, hm, hP]
      | ok P =>
        right
        exact ⟨P, s, by rw [VerifySignature_single newSigKey K sd handler td cache m am P s hm hP]⟩
  | multi b l =>
    left
    cases h : K.verifyMultisignature with
    | none => simp [VerifySignature, h]
    | some vm =>
      simp only [VerifySignature, h]
      cases vm (multiSignBytes handler sd td) b l <;> rfl
  | other n => left; rfl
  | nil => left; rfl

theorem exampleSigKey_injective (P S P1 S1 : Bytes)
    (h : exampleSigKey P S = exampleSigKey P1 S1) : P = P1 ∧ S = S1 := by
  simp only [exampleSigKey, List.cons.injEq] at h
  exact List.append_inj h.2 h.1

/-! ## Sign-mode conversions -/

/-- C5: for every external mode `x` among DIRECT, LEGACY_AMINO_JSON, TEXTUAL and
DIRECT_AUX, `APISignModeToInternal x` succeeds with some internal mode `m`, and
`internalSignModeToAPI m` succeeds and returns `x`. -/
theorem signMode_roundTrip (x : APISignMode)
    (hx : x = APISignMode.DIRECT ∨ x = APISignMode.LEGACY_AMINO_JSON ∨
      x = APISignMode.TEXTUAL ∨ x = APISignMode.DIRECT_AUX) :
    ∃ m, APISignModeToInternal x = .ok m ∧ internalSignModeToAPI m = .ok x := by
  rcases hx with h | h | h | h <;> subst h
  · exact ⟨SignMode.DIRECT, by decide, by decide⟩
  · exact ⟨SignMode.LEGACY_AMINO_JSON, by decide, by decide⟩
  · exact ⟨SignMode.TEXTUAL, by decide, by decide⟩
  · exact ⟨SignMode.DIRECT_AUX, by decide, by decide⟩

theorem signMode_roundTrip_witness :
    ∃ m, APISignModeToInternal APISignMode.LEGACY_AMINO_JSON = .ok m ∧
      internalSignModeToAPI m = .ok APISignMode.LEGACY_AMINO_JSON :=
  signMode_roundTrip APISignMode.LEGACY_AMINO_JSON (Or.inr (Or.inl rfl))

/-- C6: each conversion succeeds if and only if its input is one of the four
supported values, and otherwise returns the error `unsupported sign mode ...`;
in particular UNSPECIFIED is rejected in both directions. -/
theorem signMode_unsupported_rejected :
    (∀ x : APISignMode,
      ((∃ m, APISignModeToInternal x = .ok m) ↔
        (x = APISignMode.DIRECT ∨ x = APISignMode.LEGACY_AMINO_JSON ∨
          x = APISignMode.TEXTUAL ∨ x = APISignMode.DIRECT_AUX)) ∧
      (¬ (x = APISignMode.DIRECT ∨ x = APISignMode.LEGACY_AMINO_JSON ∨
          x = APISignMode.TEXTUAL ∨ x = APISignMode.DIRECT_AUX) →
        APISignModeToInternal x = .error ("unsupported sign mode " ++ x.String))) ∧
    (∀ m : SignMode,
      ((∃ x, internalSignModeToAPI m = .ok x) ↔
        (m = SignMode.DIRECT ∨ m = SignMode.LEGACY_AMINO_JSON ∨
          m = SignMode.TEXTUAL ∨ m = SignMode.DIRECT_AUX)) ∧
      (¬ (m = SignMode.DIRECT ∨ m = SignMode.LEGACY_AMINO_JSON ∨
          m = SignMode.TEXTUAL ∨ m = SignMode.DIRECT_AUX) →
        internalSignModeToAPI m = .error ("unsupported sign mode " ++ m.String))) ∧
    APISignModeToInternal APISignMode.UNSPECIFIED =
      .error "unsupported sign mode SIGN_MODE_UNSPECIFIED" ∧
    internalSignModeToAPI SignMode.UNSPECIFIED =
      .error "unsupported sign mode SIGN_MODE_UNSPECIFIED" := by
  refine ⟨fun x => ⟨⟨?_, ?_⟩, ?_⟩, fun m => ⟨⟨?_, ?_⟩, ?_⟩, by decide, by decide⟩
  · rintro ⟨m, hm⟩
    by_contra hn
    simp only [not_or] at hn
    simp [APISignModeToInternal, hn.1, hn.2.1, hn.2.2.1, hn.2.2.2] at hm
  · rintro (h | h | h | h) <;> subst h
    · exact ⟨_, rfl⟩
    · exact ⟨_, rfl⟩
    · exact ⟨_, rfl⟩
    · exact ⟨_, rfl⟩
  · intro hn
    simp only [not_or] at hn
    simp [APISignModeToInternal, hn.1, hn.2.1, hn.2.2.1, hn.2.2.2]
  · rintro ⟨x, hx⟩
    by_contra hn
    simp only [not_or] at hn
    simp [internalSignModeToAPI, hn.1, hn.2.1, hn.2.2.1, hn.2.2.2] at hx
  · rintro (h | h | h | h) <;> subst h
    · exact ⟨_, rfl⟩
    · exact ⟨_, rfl⟩
    · exact ⟨_, rfl⟩
    · exact ⟨_, rfl⟩
  · intro hn
    simp only [not_or] at hn
    simp [internalSignModeToAPI, hn.1, hn.2.1, hn.2.2.1, hn.2.2.2]

/-- The internal modes that convert are the four supported ones. -/
theorem signMode_supported_iff (m : SignMode) :
    (∃ x, internalSignModeToAPI m = .ok x) ↔
      (m = SignMode.DIRECT ∨ m = SignMode.LEGACY_AMINO_JSON ∨
        m = SignMode.TEXTUAL ∨ m = SignMode.DIRECT_AUX) := by
  constructor
  · rintro ⟨x, hx⟩
    by_contra hn
    simp only [not_or] at hn
    simp [internalSignModeToAPI, hn.1, hn.2.1, hn.2.2.1, hn.2.2.2] at hx
  · rintro (h | h | h | h) <;> subst h
    · exact ⟨_, rfl⟩
    · exact ⟨_, rfl⟩
    · exact ⟨_, rfl⟩
    · exact ⟨_, rfl⟩

/-! ## Single signature data -/

/-- C1: cache-hit branch on single signature data. When `Get` finds bytes `b`
under `newSigKey P S`, `verifySig` leaves the cache without that entry (other
entries untouched) and succeeds exactly when the claimed key's bytes equal `b`;
the outcome is the same for every key with the same bytes, whatever its raw
verification does; `VerifySignature` on single data with sign bytes `P` succeeds
exactly when the bytes are equal; and after an entry was stored against a key,
a claimed key with different bytes fails. -/
theorem verifySig_cache_hit (newSigKey : Bytes → Bytes → CacheKey) (P S : Bytes) (K : PubKey)
    (c : Cache) (b : Bytes) (hit : (c.Get (newSigKey P S)).1 = some b) :
    verifySig newSigKey P S K (some c) =
        (decide (K.bytes = b),
          some (Cache.mk c.size (Cache.without c.items (newSigKey P S)))) ∧
      ((Cache.mk c.size (Cache.without c.items (newSigKey P S))).Get (newSigKey P S)).1
        = none ∧
      (∀ k1, k1 ≠ newSigKey P S →
        (Cache.mk c.size (Cache.without c.items (newSigKey P S))).peek k1 = c.peek k1) ∧
      (∀ K2 : PubKey, K2.bytes = K.bytes →
        verifySig newSigKey P S K2 (some c) = verifySig newSigKey P S K (some c)) ∧
      (∀ (SignerData TxData : Type) (handler : HandlerMap SignerData TxData)
          (sd : SignerData) (td : TxData) (m : SignMode) (am : APISignMode),
        internalSignModeToAPI m = .ok am → handler.getSignBytes am sd td = .ok P →
        VerifySignature newSigKey K sd (.single m S) handler td (some c) =
          (if K.bytes = b then .ok () else .error "unable to verify single signer signature",
            some (Cache.mk c.size (Cache.without c.items (newSigKey P S))))) ∧
      (∀ (c0 : Cache) (K0 K1 : PubKey), 0 < c0.size → K1.bytes ≠ K0.bytes →
        (verifySig newSigKey P S K1 (some (c0.Add (newSigKey P S) K0.bytes))).1 = false) := by
  refine ⟨verifySig_of_hit newSigKey P S K c b hit, ?_, ?_, ?_, ?_, ?_⟩
  · simp [Cache.Get, Cache.lookup_without_self]
  · intro k1 hk
    exact Cache.lookup_without_other c.items _ k1 hk
  · intro K2 hK
    rw [verifySig_of_hit newSigKey P S K2 c b hit, verifySig_of_hit newSigKey P S K c b hit, hK]
  · intro SignerData TxData handler sd td m am hm hP
    rw [VerifySignature_single newSigKey K sd handler td (some c) m am P S hm hP,
      verifySig_of_hit newSigKey P S K c b hit]
    simp
  · intro c0 K0 K1 hpos hne
    rw [verifySig_of_hit newSigKey P S K1 _ K0.bytes (Cache.Get_Add c0 _ _ hpos)]
    simpa using hne

theorem verifySig_cache_hit_witness :
    ((Cache.mk 2 [(exampleSigKey [1, 2] [2, 1], [2, 7])]).Get (exampleSigKey [1, 2] [2, 1])).1
        = some [2, 7] ∧
      verifySig exampleSigKey [1, 2] [2, 1] otherKey
          (some (Cache.mk 2 [(exampleSigKey [1, 2] [2, 1], [2, 7])])) =
        (false, some (Cache.mk 2 [])) :=
  ⟨by decide,
    (verifySig_cache_hit exampleSigKey [1, 2] [2, 1] otherKey
      (Cache.mk 2 [(exampleSigKey [1, 2] [2, 1], [2, 7])]) [2, 7] (by decide)).1⟩

/-- C2: miss-then-hit lifecycle. For a mode that converts, sign bytes `P` from
the handler and a key `K` whose raw verification accepts `(P, S)`, three
consecutive calls from an empty cache of capacity at least one give: success
and the single entry `newSigKey P S ↦ K.bytes`; success and the empty cache;
then again success and the single entry. From the empty cache the outcome
follows raw verification (a key that does not verify fails and adds nothing),
from the one-entry cache it follows the cached bytes alone. -/
theorem VerifySignature_miss_then_hit {SignerData TxData : Type}
    (newSigKey : Bytes → Bytes → CacheKey) (K : PubKey) (sd : SignerData)
    (handler : HandlerMap SignerData TxData) (td : TxData) (n : Nat)
    (m : SignMode) (am : APISignMode) (P S : Bytes)
    (hn : 1 ≤ n) (hm : internalSignModeToAPI m = .ok am)
    (hP : handler.getSignBytes am sd td = .ok P) (hv : K.verifySignature P S = true) :
    VerifySignature newSigKey K sd (.single m S) handler td (some (Cache.mk n [])) =
        (.ok (), some (Cache.mk n [(newSigKey P S, K.bytes)])) ∧
      VerifySignature newSigKey K sd (.single m S) handler td
          (VerifySignature newSigKey K sd (.single m S) handler td (some (Cache.mk n []))).2 =
        (.ok (), some (Cache.mk n [])) ∧
      VerifySignature newSigKey K sd (.single m S) handler td
          (VerifySignature newSigKey K sd (.single m S) handler td
            (VerifySignature newSigKey K sd (.single m S) handler td
              (some (Cache.mk n []))).2).2 =
        (.ok (), some (Cache.mk n [(newSigKey P S, K.bytes)])) ∧
      (∀ K1 : PubKey, K1.verifySignature P S = false →
        VerifySignature newSigKey K1 sd (.single m S) handler td (some (Cache.mk n [])) =
          (.error "unable to verify single signer signature", some (Cache.mk n []))) ∧
      (∀ K1 : PubKey, K1.bytes = K.bytes →
        VerifySignature newSigKey K1 sd (.single m S) handler td
            (some (Cache.mk n [(newSigKey P S, K.bytes)])) =
          (.ok (), some (Cache.mk n []))) := by
  have hadd : (Cache.mk n []).Add (newSigKey P S) K.bytes
      = Cache.mk n [(newSigKey P S, K.bytes)] := by
    have : ¬ n < 1 := by omega
    simp [Cache.Add, this]
  have first : VerifySignature newSigKey K sd (.single m S) handler td (some (Cache.mk n [])) =
      (.ok (), some (Cache.mk n [(newSigKey P S, K.bytes)])) := by
    rw [VerifySignature_single newSigKey K sd handler td _ m am P S hm hP,
      verifySig_of_miss newSigKey P S K (Cache.mk n []) (by simp [Cache.Get])]
    simp [hv, hadd]
  have cached : ∀ K1 : PubKey, K1.bytes = K.bytes →
      VerifySignature newSigKey K1 sd (.single m S) handler td
          (some (Cache.mk n [(newSigKey P S, K.bytes)])) =
        (.ok (), some (Cache.mk n [])) := by
    intro K1 hK
    rw [VerifySignature_single newSigKey K1 sd handler td _ m am P S hm hP,
      verifySig_of_hit newSigKey P S K1 (Cache.mk n [(newSigKey P S, K.bytes)]) K.bytes
        (by simp [Cache.Get, List.lookup])]
    simp [hK, Cache.without]
  refine ⟨first, ?_, ?_, ?_, cached⟩
  · rw [first]
    exact cached K rfl
  · rw [first]
    simp only []
    rw [cached K rfl]
    exact first
  · intro K1 hK
    rw [VerifySignature_single newSigKey K1 sd handler td _ m am P S hm hP,
      verifySig_of_miss newSigKey P S K1 (Cache.mk n []) (by simp [Cache.Get])]
    simp [hK]

theorem VerifySignature_miss_then_hit_witness :
    VerifySignature exampleSigKey exampleKey 4 (.single SignMode.DIRECT [6, 5, 4])
        exampleHandler [5, 6] (some (Cache.mk 3 [])) =
      (.ok (), some (Cache.mk 3 [(exampleSigKey [4, 5, 6] [6, 5, 4], exampleKey.bytes)])) :=
  (VerifySignature_miss_then_hit exampleSigKey exampleKey 4 exampleHandler [5, 6] 3
    SignMode.DIRECT APISignMode.DIRECT [4, 5, 6] [6, 5, 4]
    (by decide) (by decide) (by decide) (by decide)).1

/-- C4: cacheless baseline. With a nil cache, `VerifySignature` on single
signature data succeeds if and only if the mode is one of the four supported
ones, the handler returns sign bytes `P` for the converted mode, and the key's
raw verification accepts `(P, S)`; a conversion error and a handler error are
returned as they are, a false raw verification gives an error, and the cache
stays nil. -/
theorem VerifySignature_nil_cache {SignerData TxData : Type}
    (newSigKey : Bytes → Bytes → CacheKey) (K : PubKey) (sd : SignerData)
    (handler : HandlerMap SignerData TxData) (td : TxData) (m : SignMode) (S : Bytes) :
    ((VerifySignature newSigKey K sd (.single m S) handler td none).1 = .ok () ↔
        (m = SignMode.DIRECT ∨ m = SignMode.LEGACY_AMINO_JSON ∨
          m = SignMode.TEXTUAL ∨ m = SignMode.DIRECT_AUX) ∧
        ∃ am P, internalSignModeToAPI m = .ok am ∧ handler.getSignBytes am sd td = .ok P ∧
          K.verifySignature P S = true) ∧
      (∀ err, internalSignModeToAPI m = .error err →
        VerifySignature newSigKey K sd (.single m S) handler td none = (.error err, none)) ∧
      (∀ am err, internalSignModeToAPI m = .ok am →
        handler.getSignBytes am sd td = .error err →
        VerifySignature newSigKey K sd (.single m S) handler td none = (.error err, none)) ∧
      (∀ am P, internalSignModeToAPI m = .ok am → handler.getSignBytes am sd td = .ok P →
        K.verifySignature P S = false →
        VerifySignature newSigKey K sd (.single m S) handler td none =
          (.error "unable to verify single signer signature", none)) ∧
      (VerifySignature newSigKey K sd (.single m S) handler td none).2 = none := by
  have hsupp : ∀ am, internalSignModeToAPI m = .ok am →
      (m = SignMode.DIRECT ∨ m = SignMode.LEGACY_AMINO_JSON ∨
        m = SignMode.TEXTUAL ∨ m = SignMode.DIRECT_AUX) := fun am h =>
    ((signMode_supported_iff m).1 ⟨am, h⟩)
  cases hm : internalSignModeToAPI m with
  | error e =>
    refine ⟨⟨?_, ?_⟩, ?_, ?_, ?_, ?_⟩
    · intro h
      simp [VerifySignature, hm] at h
    · rintro ⟨_, am, P, h, _⟩
      cases h
    · intro err herr
      cases herr
      simp [VerifySignature, hm]
    · intro am err h
      cases h
    · intro am P h
      cases h
    · simp [VerifySignature, hm]
  | ok am =>
    cases hP : handler.getSignBytes am sd td with
    | error e =>
      refine ⟨⟨?_, ?_⟩, ?_, ?_, ?_, ?_⟩
      · intro h
        simp [VerifySignature, hm, hP] at h
      · rintro ⟨_, am1, P, h, h1, _⟩
        cases h
        rw [hP] at h1
        cases h1
      · intro err herr
        cases herr
      · intro am1 err h h1
        cases h
        rw [hP] at h1
        cases h1
        simp [VerifySignature, hm, hP]
      · intro am1 P h h1
        cases h
        rw [hP] at h1
        cases h1
      · simp [VerifySignature, hm, hP]
    | ok P =>
      have hvs := VerifySignature_single newSigKey K sd handler td none m am P S hm hP
      rw [verifySig_of_nil] at hvs
      refine ⟨⟨?_, ?_⟩, ?_, ?_, ?_, ?_⟩
      · intro h
        refine ⟨hsupp am hm, am, P, rfl, hP, ?_⟩
        rw [hvs] at h
        by_contra hf
        simp [hf] at h
      · rintro ⟨_, am1, P1, h, h1, h2⟩
        cases h
        rw [hP] at h1
        cases h1
        rw [hvs]
        simp [h2]
      · intro err herr
        cases herr
      · intro am1 err h h1
        cases h
        rw [hP] at h1
        cases h1
      · intro am1 P1 h h1 h2
        cases h
        rw [hP] at h1
        cases h1
        rw [hvs]
        simp [h2]
      · rw [hvs]

/-! ## Multi and unknown signature data -/

/-- C8: multi signature data is decided by the key alone. Without the multisig
capability the call returns an error; with it the call returns exactly the
result of the key's `VerifyMultisignature` applied to the data and to the
callback that maps an internal mode to the handler's sign bytes for the
converted mode, or to the conversion error; the cache is returned unchanged and
the result is the one obtained with a nil cache. -/
theorem VerifySignature_multi {SignerData TxData : Type}
    (newSigKey : Bytes → Bytes → CacheKey) (K : PubKey) (sd : SignerData)
    (handler : HandlerMap SignerData TxData) (td : TxData) (cache : Option Cache)
    (bits : CompactBitArray) (sigs : List SignatureData) :
    (K.verifyMultisignature = none →
        VerifySignature newSigKey K sd (.multi bits sigs) handler td cache =
          (.error ("expected <nil>, got " ++ K.typeName), cache)) ∧
      (∀ verifyMulti, K.verifyMultisignature = some verifyMulti →
        VerifySignature newSigKey K sd (.multi bits sigs) handler td cache =
          (verifyMulti (multiSignBytes handler sd td) bits sigs, cache)) ∧
      (∀ mode am, internalSignModeToAPI mode = .ok am →
        multiSignBytes handler sd td mode = handler.getSignBytes am sd td) ∧
      (∀ mode err, internalSignModeToAPI mode = .error err →
        multiSignBytes handler sd td mode = .error err) ∧
      (VerifySignature newSigKey K sd (.multi bits sigs) handler td cache).1 =
        (VerifySignature newSigKey K sd (.multi bits sigs) handler td none).1 ∧
      (VerifySignature newSigKey K sd (.multi bits sigs) handler td cache).2 = cache := by
  refine ⟨?_, ?_, ?_, ?_, ?_, ?_⟩
  · intro h
    simp [VerifySignature, h]
  · intro vm h
    simp only [VerifySignature, h]
    cases vm (multiSignBytes handler sd td) bits sigs <;> rfl
  · intro mode am h
    simp [multiSignBytes, h]
  · intro mode err h
    simp [multiSignBytes, h]
  · cases h : K.verifyMultisignature with
    | none => simp [VerifySignature, h]
    | some vm =>
      simp only [VerifySignature, h]
      cases vm (multiSignBytes handler sd td) bits sigs <;> rfl
  · cases h : K.verifyMultisignature with
    | none => simp [VerifySignature, h]
    | some vm =>
      simp only [VerifySignature, h]
      cases vm (multiSignBytes handler sd td) bits sigs <;> rfl

/-- C9: unknown signature-data shape. For signature data that is neither single
nor multi (the nil interface included), `VerifySignature` returns the error
`unexpected SignatureData ...` and returns the cache, nil or not, unchanged. -/
theorem VerifySignature_unknown_shape {SignerData TxData : Type}
    (newSigKey : Bytes → Bytes → CacheKey) (K : PubKey) (sd : SignerData)
    (handler : HandlerMap SignerData TxData) (td : TxData) (cache : Option Cache)
    (data : SignatureData) (h1 : ∀ m s, data ≠ .single m s) (h2 : ∀ b l, data ≠ .multi b l) :
    VerifySignature newSigKey K sd data handler td cache =
      (.error ("unexpected SignatureData " ++ data.typeString), cache) := by
  cases data with
  | single m s => exact absurd rfl (h1 m s)
  | multi b l => exact absurd rfl (h2 b l)
  | other n => rfl
  | nil => rfl

theorem VerifySignature_unknown_shape_witness :
    VerifySignature exampleSigKey exampleKey 4 SignatureData.nil exampleHandler [5, 6]
        (some (Cache.mk 2 [(exampleSigKey [1, 2] [2, 1], [2, 7])])) =
      (.error "unexpected SignatureData <nil>",
        some (Cache.mk 2 [(exampleSigKey [1, 2] [2, 1], [2, 7])])) :=
  VerifySignature_unknown_shape exampleSigKey exampleKey 4 exampleHandler [5, 6]
    (some (Cache.mk 2 [(exampleSigKey [1, 2] [2, 1], [2, 7])])) SignatureData.nil
    (fun _ _ h => SignatureData.noConfusion h) (fun _ _ h => SignatureData.noConfusion h)

theorem VerifySignature_multi_witness :
    VerifySignature exampleSigKey exampleMultiKey 4
        (.multi (CompactBitArray.mk 6 [192])
          [.single SignMode.DIRECT [6, 5, 4], .single SignMode.LEGACY_AMINO_JSON [4, 6, 5]])
        exampleHandler [5, 6] (some (Cache.mk 2 [])) =
      (.ok (), some (Cache.mk 2 [])) ∧
    VerifySignature exampleSigKey exampleKey 4
        (.multi (CompactBitArray.mk 6 [192]) [.single SignMode.DIRECT [6, 5, 4]])
        exampleHandler [5, 6] (some (Cache.mk 2 [])) =
      (.error "expected <nil>, got *secp256k1.PubKey", some (Cache.mk 2 [])) :=
  ⟨((VerifySignature_multi exampleSigKey exampleMultiKey 4 exampleHandler [5, 6]
      (some (Cache.mk 2 [])) (CompactBitArray.mk 6 [192])
      [.single SignMode.DIRECT [6, 5, 4], .single SignMode.LEGACY_AMINO_JSON [4, 6, 5]]).2.1
      _ rfl).trans (by decide),
    ((VerifySignature_multi exampleSigKey exampleKey 4 exampleHandler [5, 6]
      (some (Cache.mk 2 [])) (CompactBitArray.mk 6 [192])
      [.single SignMode.DIRECT [6, 5, 4]]).1 rfl).trans (by decide)⟩

/-! ## Failure kinds -/

/-- C7, the claim fails: a cache hit under a key with other bytes and a failed
raw verification without a cache return the same error. -/
theorem failure_kinds_counterexample :
    ((Cache.mk 2 [(exampleSigKey [4, 5, 6] [6, 5, 4], [2, 7])]).Get
        (exampleSigKey [4, 5, 6] [6, 5, 4])).1 = some [2, 7] ∧
      otherKey.bytes ≠ [2, 7] ∧
      otherKey.verifySignature [4, 5, 6] [6, 5, 4] = false ∧
      exampleHandler.getSignBytes APISignMode.DIRECT 4 [5, 6] = .ok [4, 5, 6] ∧
      (VerifySignature exampleSigKey otherKey 4 (.single SignMode.DIRECT [6, 5, 4])
          exampleHandler [5, 6]
          (some (Cache.mk 2 [(exampleSigKey [4, 5, 6] [6, 5, 4], [2, 7])]))).1 =
        .error "unable to verify single signer signature" ∧
      (VerifySignature exampleSigKey otherKey 4 (.single SignMode.DIRECT [6, 5, 4])
          exampleHandler [5, 6] none).1 =
        .error "unable to verify single signer signature" ∧
      ¬ ((VerifySignature exampleSigKey otherKey 4 (.single SignMode.DIRECT [6, 5, 4])
          exampleHandler [5, 6]
          (some (Cache.mk 2 [(exampleSigKey [4, 5, 6] [6, 5, 4], [2, 7])]))).1 ≠
        (VerifySignature exampleSigKey otherKey 4 (.single SignMode.DIRECT [6, 5, 4])
          exampleHandler [5, 6] none).1) := by
  refine ⟨by decide, by decide, by decide, by decide, by decide, by decide, by decide⟩

/-- The error of a failed mode conversion is the text built from the mode. -/
theorem internalSignModeToAPI_error (m : SignMode) (err : Error)
    (h : internalSignModeToAPI m = .error err) : err = "unsupported sign mode " ++ m.String := by
  unfold internalSignModeToAPI at h
  split_ifs at h
  cases h
  rfl

theorem unsupported_ne_unable (s : String) :
    "unsupported sign mode " ++ s ≠ "unable to verify single signer signature" := by
  intro h
  have h2 := congrArg String.data h
  simp [String.data_append] at h2

theorem unsupported_ne_expected (s t : String) :
    "unsupported sign mode " ++ s ≠ "expected <nil>, got " ++ t := by
  intro h
  have h2 := congrArg String.data h
  simp [String.data_append] at h2

theorem unsupported_ne_unexpected (s t : String) :
    "unsupported sign mode " ++ s ≠ "unexpected SignatureData " ++ t := by
  intro h
  have h2 := congrArg String.data h
  simp [String.data_append] at h2

theorem expected_ne_unable (t : String) :
    "expected <nil>, got " ++ t ≠ "unable to verify single signer signature" := by
  intro h
  have h2 := congrArg String.data h
  simp [String.data_append] at h2

theorem unexpected_ne_unable (t : String) :
    "unexpected SignatureData " ++ t ≠ "unable to verify single signer signature" := by
  intro h
  have h2 := congrArg String.data h
  simp [String.data_append] at h2

theorem expected_ne_unexpected (s t : String) :
    "expected <nil>, got " ++ s ≠ "unexpected SignatureData " ++ t := by
  intro h
  have h2 := congrArg String.data h
  simp [String.data_append] at h2

/-- The error returned at the mode conversion of single signature data. -/
theorem VerifySignature_of_unsupported {SignerData TxData : Type}
    (newSigKey : Bytes → Bytes → CacheKey) (K : PubKey) (sd : SignerData)
    (handler : HandlerMap SignerData TxData) (td : TxData) (cache : Option Cache)
    (m : SignMode) (S : Bytes) (err : Error) (hm : internalSignModeToAPI m = .error err) :
    (VerifySignature newSigKey K sd (.single m S) handler td cache).1 =
      .error ("unsupported sign mode " ++ m.String) := by
  have he := internalSignModeToAPI_error m err hm
  subst he
  simp [VerifySignature, hm]

/-- The error returned when `verifySig` returns false. -/
theorem VerifySignature_of_failsVerification {SignerData TxData : Type}
    (newSigKey : Bytes → Bytes → CacheKey) (K : PubKey) (sd : SignerData)
    (data : SignatureData) (handler : HandlerMap SignerData TxData) (td : TxData)
    (cache : Option Cache) (h : failsVerification newSigKey K sd data handler td cache) :
    (VerifySignature newSigKey K sd data handler td cache).1 =
      .error "unable to verify single signer signature" := by
  obtain ⟨m, S, am, P, hd, hm, hP, hv⟩ := h
  subst hd
  rw [VerifySignature_single newSigKey K sd handler td cache m am P S hm hP]
  simp [hv]

/-- The error returned for multi signature data and a key without the capability. -/
theorem VerifySignature_of_failsNotMultisig {SignerData TxData : Type}
    (newSigKey : Bytes → Bytes → CacheKey) (K : PubKey) (sd : SignerData)
    (data : SignatureData) (handler : HandlerMap SignerData TxData) (td : TxData)
    (cache : Option Cache) (h : failsNotMultisig K data) :
    (VerifySignature newSigKey K sd data handler td cache).1 =
      .error ("expected <nil>, got " ++ K.typeName) := by
  obtain ⟨bits, sigs, hd, hk⟩ := h
  subst hd
  simp [VerifySignature, hk]

/-- The error returned in the default branch. -/
theorem VerifySignature_of_failsUnknownData {SignerData TxData : Type}
    (newSigKey : Bytes → Bytes → CacheKey) (K : PubKey) (sd : SignerData)
    (data : SignatureData) (handler : HandlerMap SignerData TxData) (td : TxData)
    (cache : Option Cache) (h : failsUnknownData data) :
    (VerifySignature newSigKey K sd data handler td cache).1 =
      .error ("unexpected SignatureData " ++ data.typeString) := by
  cases data with
  | single m s => exact absurd rfl (h.1 m s)
  | multi b l => exact absurd rfl (h.2 b l)
  | other n => rfl
  | nil => rfl

/-- An error of the handler or of the key's `VerifyMultisignature` is returned as it is. -/
theorem VerifySignature_of_passedThrough {SignerData TxData : Type}
    (newSigKey : Bytes → Bytes → CacheKey) (K : PubKey) (sd : SignerData)
    (data : SignatureData) (handler : HandlerMap SignerData TxData) (td : TxData)
    (cache : Option Cache) (err : Error) (h : passedThrough K sd data handler td err) :
    (VerifySignature newSigKey K sd data handler td cache).1 = .error err := by
  rcases h with ⟨m, S, am, hd, hm, hP⟩ | ⟨bits, sigs, vm, hd, hk, hr⟩
  · subst hd
    simp [VerifySignature, hm, hP]
  · subst hd
    simp [VerifySignature, hk, hr]

/-- Every error of `VerifySignature` comes from one of its error returns, with
the text of that return. -/
theorem VerifySignature_error_cause {SignerData TxData : Type}
    (newSigKey : Bytes → Bytes → CacheKey) (K : PubKey) (sd : SignerData)
    (data : SignatureData) (handler : HandlerMap SignerData TxData) (td : TxData)
    (cache : Option Cache) (err : Error)
    (h : (VerifySignature newSigKey K sd data handler td cache).1 = .error err) :
    (failsUnsupportedMode data ∧ ∃ s, err = "unsupported sign mode " ++ s) ∨
      (failsVerification newSigKey K sd data handler td cache ∧
        err = "unable to verify single signer signature") ∨
      (failsNotMultisig K data ∧ ∃ t, err = "expected <nil>, got " ++ t) ∨
      (failsUnknownData data ∧ ∃ t, err = "unexpected SignatureData " ++ t) ∨
      passedThrough K sd data handler td err := by
  cases data with
  | single m S =>
    cases hm : internalSignModeToAPI m with
    | error e =>
      rw [VerifySignature_of_unsupported newSigKey K sd handler td cache m S e hm] at h
      cases h
      exact Or.inl ⟨⟨m, S, e, rfl, hm⟩, m.String, rfl⟩
    | ok am =>
      cases hP : handler.getSignBytes am sd td with
      | error e =>
        have hpt : passedThrough K sd (.single m S) handler td e :=
          Or.inl ⟨m, S, am, rfl, hm, hP⟩
        rw [VerifySignature_of_passedThrough newSigKey K sd _ handler td cache e hpt] at h
        cases h
        exact Or.inr (Or.inr (Or.inr (Or.inr hpt)))
      | ok P =>
        rw [VerifySignature_single newSigKey K sd handler td cache m am P S hm hP] at h
        cases hv : (verifySig newSigKey P S K cache).1 with
        | true => simp [hv] at h
        | false =>
          simp only [hv] at h
          cases h
          exact Or.inr (Or.inl ⟨⟨m, S, am, P, rfl, hm, hP, hv⟩, rfl⟩)
  | multi b l =>
    cases hk : K.verifyMultisignature with
    | none =>
      have hn : failsNotMultisig K (.multi b l) := ⟨b, l, rfl, hk⟩
      rw [VerifySignature_of_failsNotMultisig newSigKey K sd _ handler td cache hn] at h
      cases h
      exact Or.inr (Or.inr (Or.inl ⟨hn, K.typeName, rfl⟩))
    | some vm =>
      cases hr : vm (multiSignBytes handler sd td) b l with
      | error e =>
        have hpt : passedThrough K sd (.multi b l) handler td e :=
          Or.inr ⟨b, l, vm, rfl, hk, hr⟩
        rw [VerifySignature_of_passedThrough newSigKey K sd _ handler td cache e hpt] at h
        cases h
        exact Or.inr (Or.inr (Or.inr (Or.inr hpt)))
      | ok u => simp [VerifySignature, hk, hr] at h
  | other n =>
    have hx : failsUnknownData (.other n) :=
      ⟨fun _ _ hc => SignatureData.noConfusion hc, fun _ _ hc => SignatureData.noConfusion hc⟩
    rw [VerifySignature_of_failsUnknownData newSigKey K sd _ handler td cache hx] at h
    cases h
    exact Or.inr (Or.inr (Or.inr (Or.inl ⟨hx, _, rfl⟩)))
  | nil =>
    have hx : failsUnknownData .nil :=
      ⟨fun _ _ hc => SignatureData.noConfusion hc, fun _ _ hc => SignatureData.noConfusion hc⟩
    rw [VerifySignature_of_failsUnknownData newSigKey K sd _ handler td cache hx] at h
    cases h
    exact Or.inr (Or.inr (Or.inr (Or.inl ⟨hx, _, rfl⟩)))

/-- For an error that was not passed through, its text tells which error
return of `VerifySignature` produced it. -/
theorem VerifySignature_cause_iff_text {SignerData TxData : Type}
    (newSigKey : Bytes → Bytes → CacheKey) (K : PubKey) (sd : SignerData)
    (data : SignatureData) (handler : HandlerMap SignerData TxData) (td : TxData)
    (cache : Option Cache) (err : Error)
    (h : (VerifySignature newSigKey K sd data handler td cache).1 = .error err)
    (hnp : ¬ passedThrough K sd data handler td err) :
    (failsUnsupportedMode data ↔ ∃ s, err = "unsupported sign mode " ++ s) ∧
      (failsVerification newSigKey K sd data handler td cache ↔
        err = "unable to verify single signer signature") ∧
      (failsNotMultisig K data ↔ ∃ t, err = "expected <nil>, got " ++ t) ∧
      (failsUnknownData data ↔ ∃ t, err = "unexpected SignatureData " ++ t) := by
  have hc := VerifySignature_error_cause newSigKey K sd data handler td cache err h
  refine ⟨⟨?_, ?_⟩, ⟨?_, ?_⟩, ⟨?_, ?_⟩, ⟨?_, ?_⟩⟩
  · rintro ⟨m, S, e, hd, hm⟩
    subst hd
    rw [VerifySignature_of_unsupported newSigKey K sd handler td cache m S e hm] at h
    cases h
    exact ⟨_, rfl⟩
  · rintro ⟨s, hs⟩
    rcases hc with ⟨hu, _⟩ | ⟨_, he⟩ | ⟨_, t, he⟩ | ⟨_, t, he⟩ | hp
    · exact hu
    · exact absurd (hs.symm.trans he) (unsupported_ne_unable s)
    · exact absurd (hs.symm.trans he) (unsupported_ne_expected s t)
    · exact absurd (hs.symm.trans he) (unsupported_ne_unexpected s t)
    · exact absurd hp hnp
  · intro hv
    rw [VerifySignature_of_failsVerification newSigKey K sd data handler td cache hv] at h
    cases h
    rfl
  · intro hs
    rcases hc with ⟨_, s, he⟩ | ⟨hv, _⟩ | ⟨_, t, he⟩ | ⟨_, t, he⟩ | hp
    · exact absurd (he.symm.trans hs) (unsupported_ne_unable s)
    · exact hv
    · exact absurd (he.symm.trans hs) (expected_ne_unable t)
    · exact absurd (he.symm.trans hs) (unexpected_ne_unable t)
    · exact absurd hp hnp
  · intro hn
    rw [VerifySignature_of_failsNotMultisig newSigKey K sd data handler td cache hn] at h
    cases h
    exact ⟨_, rfl⟩
  · rintro ⟨t, hs⟩
    rcases hc with ⟨_, s, he⟩ | ⟨_, he⟩ | ⟨hn, _⟩ | ⟨_, t1, he⟩ | hp
    · exact absurd (he.symm.trans hs) (unsupported_ne_expected s t)
    · exact absurd (hs.symm.trans he) (expected_ne_unable t)
    · exact hn
    · exact absurd (hs.symm.trans he) (expected_ne_unexpected t t1)
    · exact absurd hp hnp
  · intro hx
    rw [VerifySignature_of_failsUnknownData newSigKey K sd data handler td cache hx] at h
    cases h
    exact ⟨_, rfl⟩
  · rintro ⟨t, hs⟩
    rcases hc with ⟨_, s, he⟩ | ⟨_, he⟩ | ⟨_, t1, he⟩ | ⟨hx, _⟩ | hp
    · exact absurd (he.symm.trans hs) (unsupported_ne_unexpected s t)
    · exact absurd (hs.symm.trans he) (unexpected_ne_unable t)
    · exact absurd (he.symm.trans hs) (expected_ne_unexpected t1 t)
    · exact hx
    · exact absurd hp hnp

/-- C7, amended: the errors that `VerifySignature` itself produces identify
their cause, up to one merge. A cache hit on bytes other than the claimed key's
and a false raw verification (on a cache miss or without a cache) return one and
the same error, `unable to verify single signer signature`. An unsupported mode
of single data returns `unsupported sign mode <mode>`, a key without multisig
capability `expected <nil>, got <type>`, an unknown shape
`unexpected SignatureData <type>`; errors of the handler and of the key's
`VerifyMultisignature` are returned as they are. Every failure has one of these
causes; for a failure that was not passed through, the text of the error tells
which of the four causes holds; and two calls that return the same error,
passed through in neither, failed for the same cause. -/
theorem VerifySignature_failure_kinds {SignerData TxData : Type}
    (newSigKey : Bytes → Bytes → CacheKey) (K : PubKey) (sd : SignerData)
    (data : SignatureData) (handler : HandlerMap SignerData TxData) (td : TxData)
    (cache : Option Cache) :
    (∀ m S am P, data = .single m S → internalSignModeToAPI m = .ok am →
        handler.getSignBytes am sd td = .ok P →
        (∀ c b, cache = some c → (c.Get (newSigKey P S)).1 = some b → K.bytes ≠ b →
          (VerifySignature newSigKey K sd data handler td cache).1 =
            .error "unable to verify single signer signature") ∧
        (∀ c, cache = some c → (c.Get (newSigKey P S)).1 = none →
          K.verifySignature P S = false →
          (VerifySignature newSigKey K sd data handler td cache).1 =
            .error "unable to verify single signer signature") ∧
        (cache = none → K.verifySignature P S = false →
          (VerifySignature newSigKey K sd data handler td cache).1 =
            .error "unable to verify single signer signature")) ∧
      (∀ m S err, data = .single m S → internalSignModeToAPI m = .error err →
        (VerifySignature newSigKey K sd data handler td cache).1 =
          .error ("unsupported sign mode " ++ m.String)) ∧
      (failsVerification newSigKey K sd data handler td cache →
        (VerifySignature newSigKey K sd data handler td cache).1 =
          .error "unable to verify single signer signature") ∧
      (failsNotMultisig K data →
        (VerifySignature newSigKey K sd data handler td cache).1 =
          .error ("expected <nil>, got " ++ K.typeName)) ∧
      (failsUnknownData data →
        (VerifySignature newSigKey K sd data handler td cache).1 =
          .error ("unexpected SignatureData " ++ data.typeString)) ∧
      (∀ err, passedThrough K sd data handler td err →
        (VerifySignature newSigKey K sd data handler td cache).1 = .error err) ∧
      (∀ err, (VerifySignature newSigKey K sd data handler td cache).1 = .error err →
        failsUnsupportedMode data ∨ failsVerification newSigKey K sd data handler td cache ∨
          failsNotMultisig K data ∨ failsUnknownData data ∨
          passedThrough K sd data handler td err) ∧
      (∀ err, (VerifySignature newSigKey K sd data handler td cache).1 = .error err →
        ¬ passedThrough K sd data handler td err →
        (failsUnsupportedMode data ↔ ∃ s, err = "unsupported sign mode " ++ s) ∧
          (failsVerification newSigKey K sd data handler td cache ↔
            err = "unable to verify single signer signature") ∧
          (failsNotMultisig K data ↔ ∃ t, err = "expected <nil>, got " ++ t) ∧
          (failsUnknownData data ↔ ∃ t, err = "unexpected SignatureData " ++ t)) ∧
      (∀ (K2 : PubKey) (sd2 : SignerData) (data2 : SignatureData)
          (handler2 : HandlerMap SignerData TxData) (td2 : TxData) (cache2 : Option Cache)
          (err : Error),
        (VerifySignature newSigKey K sd data handler td cache).1 = .error err →
        (VerifySignature newSigKey K2 sd2 data2 handler2 td2 cache2).1 = .error err →
        ¬ passedThrough K sd data handler td err →
        ¬ passedThrough K2 sd2 data2 handler2 td2 err →
        (failsUnsupportedMode data ↔ failsUnsupportedMode data2) ∧
          (failsVerification newSigKey K sd data handler td cache ↔
            failsVerification newSigKey K2 sd2 data2 handler2 td2 cache2) ∧
          (failsNotMultisig K data ↔ failsNotMultisig K2 data2) ∧
          (failsUnknownData data ↔ failsUnknownData data2)) := by
  refine ⟨?_, ?_, VerifySignature_of_failsVerification newSigKey K sd data handler td cache,
    VerifySignature_of_failsNotMultisig newSigKey K sd data handler td cache,
    VerifySignature_of_failsUnknownData newSigKey K sd data handler td cache,
    VerifySignature_of_passedThrough newSigKey K sd data handler td cache, ?_,
    VerifySignature_cause_iff_text newSigKey K sd data handler td cache, ?_⟩
  · intro m S am P hd hm hP
    subst hd
    refine ⟨?_, ?_, ?_⟩
    · intro c b hc hit hne
      subst hc
      rw [VerifySignature_single newSigKey K sd handler td (some c) m am P S hm hP,
        verifySig_of_hit newSigKey P S K c b hit]
      simp [hne]
    · intro c hc miss hv
      subst hc
      rw [VerifySignature_single newSigKey K sd handler td (some c) m am P S hm hP,
        verifySig_of_miss newSigKey P S K c miss]
      simp [hv]
    · intro hc hv
      subst hc
      rw [VerifySignature_single newSigKey K sd handler td none m am P S hm hP,
        verifySig_of_nil]
      simp [hv]
  · intro m S err hd hm
    subst hd
    exact VerifySignature_of_unsupported newSigKey K sd handler td cache m S err hm
  · intro err h
    rcases VerifySignature_error_cause newSigKey K sd data handler td cache err h with
      ⟨hu, _⟩ | ⟨hv, _⟩ | ⟨hn, _⟩ | ⟨hx, _⟩ | hp
    · exact Or.inl hu
    · exact Or.inr (Or.inl hv)
    · exact Or.inr (Or.inr (Or.inl hn))
    · exact Or.inr (Or.inr (Or.inr (Or.inl hx)))
    · exact Or.inr (Or.inr (Or.inr (Or.inr hp)))
  · intro K2 sd2 data2 handler2 td2 cache2 err h1 h2 hp1 hp2
    obtain ⟨a1, b1, c1, d1⟩ :=
      VerifySignature_cause_iff_text newSigKey K sd data handler td cache err h1 hp1
    obtain ⟨a2, b2, c2, d2⟩ :=
      VerifySignature_cause_iff_text newSigKey K2 sd2 data2 handler2 td2 cache2 err h2 hp2
    exact ⟨a1.trans a2.symm, b1.trans b2.symm, c1.trans c2.symm, d1.trans d2.symm⟩

theorem VerifySignature_failure_kinds_witness :
    (VerifySignature exampleSigKey otherKey 4 (.single SignMode.DIRECT [6, 5, 4])
          exampleHandler [5, 6]
          (some (Cache.mk 2 [(exampleSigKey [4, 5, 6] [6, 5, 4], [2, 7])]))).1 =
        .error "unable to verify single signer signature" ∧
      (VerifySignature exampleSigKey otherKey 4 (.single SignMode.UNSPECIFIED [6, 5, 4])
          exampleHandler [5, 6] none).1 =
        .error "unsupported sign mode SIGN_MODE_UNSPECIFIED" ∧
      failsVerification exampleSigKey otherKey 4 (.single SignMode.DIRECT [6, 5, 4])
        exampleHandler [5, 6] none :=
  ⟨(VerifySignature_failure_kinds exampleSigKey otherKey 4 (.single SignMode.DIRECT [6, 5, 4])
      exampleHandler [5, 6]
      (some (Cache.mk 2 [(exampleSigKey [4, 5, 6] [6, 5, 4], [2, 7])]))).1
      SignMode.DIRECT [6, 5, 4] APISignMode.DIRECT [4, 5, 6] rfl (by decide) (by decide)
      |>.1 (Cache.mk 2 [(exampleSigKey [4, 5, 6] [6, 5, 4], [2, 7])]) [2, 7] rfl
        (by decide) (by decide),
    (VerifySignature_failure_kinds exampleSigKey otherKey 4
      (.single SignMode.UNSPECIFIED [6, 5, 4]) exampleHandler [5, 6] none).2.1
      SignMode.UNSPECIFIED [6, 5, 4] _ rfl rfl,
    ((VerifySignature_failure_kinds exampleSigKey otherKey 4
      (.single SignMode.DIRECT [6, 5, 4]) exampleHandler [5, 6] none).2.2.2.2.2.2.2.1
      "unable to verify single signer signature" (by decide)
      (by
        rintro (⟨m, S, am, hd, hm, hP⟩ | ⟨bits, sigs, vm, hd, _⟩)
        · cases hd
          have ham : am = APISignMode.DIRECT := by
            have h0 : internalSignModeToAPI SignMode.DIRECT = .ok APISignMode.DIRECT := rfl
            rw [h0] at hm
            cases hm
            rfl
          subst ham
          revert hP
          decide
        · cases hd)).2.1.2 rfl⟩

/-! ## The cache invariant -/

/-- C3: cache validity invariant. With `newSigKey` injective on pairs, if
every entry of the cache maps the key of a pair `(P, S)` to the bytes of a
public key whose raw verification accepts `(P, S)`, and the claimed key is one
of the public keys considered, then the same holds of the cache left by
`verifySig`, and of the cache left by `VerifySignature` on every signature
data; every entry `verifySig` leaves was there before or is the pair's key with
the claimed key's bytes, added after the claimed key verified. -/
theorem verifySig_preserves_valid {SignerData TxData : Type}
    (newSigKey : Bytes → Bytes → CacheKey) (keys : PubKey → Prop)
    (hinj : ∀ P S P1 S1, newSigKey P S = newSigKey P1 S1 → P = P1 ∧ S = S1)
    (c : Cache) (hc : c.Valid newSigKey keys) (K : PubKey) (hK : keys K) :
    (∀ P S c1, (verifySig newSigKey P S K (some c)).2 = some c1 →
        c1.Valid newSigKey keys) ∧
      (∀ (data : SignatureData) (handler : HandlerMap SignerData TxData) (sd : SignerData)
          (td : TxData) c1,
        (VerifySignature newSigKey K sd data handler td (some c)).2 = some c1 →
        c1.Valid newSigKey keys) ∧
      (∀ P S c1, (verifySig newSigKey P S K (some c)).2 = some c1 →
        ∀ e ∈ c1.items,
          e ∈ c.items ∨ (e = (newSigKey P S, K.bytes) ∧ K.verifySignature P S = true)) := by
  have step : ∀ P S c1, (verifySig newSigKey P S K (some c)).2 = some c1 →
      c1.Valid newSigKey keys := by
    intro P S c1 h e he
    rcases (verifySig_items newSigKey P S K c c1 h).2 e he with h1 | ⟨h1, hv⟩
    · exact hc e h1
    · subst h1
      refine ⟨⟨P, S, rfl⟩, fun P1 S1 h2 => ?_⟩
      obtain ⟨hP, hS⟩ := hinj P1 S1 P S h2
      subst hP
      subst hS
      exact ⟨K, hK, rfl, hv⟩
  refine ⟨step, ?_, fun P S c1 h => (verifySig_items newSigKey P S K c c1 h).2⟩
  intro data handler sd td c1 h
  rcases VerifySignature_cache newSigKey K sd data handler td (some c) with h1 | ⟨P, S, h1⟩
  · rw [h1] at h
    cases h
    exact hc
  · rw [h1] at h
    exact step P S c1 h

theorem verifySig_preserves_valid_witness :
    (Cache.mk 2 [(exampleSigKey [4, 5, 6] [6, 5, 4], [2, 7]),
        (exampleSigKey [1, 2] [2, 1], [2, 7])]).Valid exampleSigKey exampleKeys := by
  have hc : (Cache.mk 2 [(exampleSigKey [1, 2] [2, 1], [2, 7])]).Valid
      exampleSigKey exampleKeys := by
    intro e he
    simp only [List.mem_singleton] at he
    subst he
    refine ⟨⟨[1, 2], [2, 1], rfl⟩, fun P S h => ?_⟩
    obtain ⟨hP, hS⟩ := exampleSigKey_injective P S [1, 2] [2, 1] h
    subst hP
    subst hS
    exact ⟨exampleKey, ⟨rfl, rfl⟩, rfl, by decide⟩
  exact (@verifySig_preserves_valid Nat Bytes exampleSigKey
    exampleKeys exampleSigKey_injective _ hc exampleKey ⟨rfl, rfl⟩).1
    [4, 5, 6] [6, 5, 4] _ (by decide)

end Signing
